import Mathlib

/-!
Verification of the SQL agent construction dispatcher
(`langchain_community/agent_toolkits/sql/base.py`, `create_sql_agent`).

The dispatcher is embedded shallowly: pure Lean structures stand for the
framework objects the function assembles, and `create_sql_agent` is a pure
function returning `Except BuildError AgentExecutor`.  Python exceptions
surface as `Except.error`; the call order of the source (kwargs check,
default agent type, tool merge, prefix interpolation, dispatch, executor
wrap) is preserved.
-/

/-- A tool, as consumed by the builder: an opaque capability carrying a name
and a natural-language description. -/
structure Tool where
  name : String
  description : String
  deriving DecidableEq

/-- An opaque language-model handle; the builder never inspects it. -/
structure BaseLanguageModel where
  id : Nat
  deriving DecidableEq

/-- The SQL toolkit: a list of tools plus the database dialect name. -/
structure SQLDatabaseToolkit where
  tools : List Tool
  dialect : String
  deriving DecidableEq

/-- The tool accessor of the toolkit (`toolkit.get_tools()`). -/
def SQLDatabaseToolkit.get_tools (tk : SQLDatabaseToolkit) : List Tool :=
  tk.tools

/-- Core of the Python `str.format` method as used at `prefix.format(dialect=..., top_k=...)`:
scans the character list; `\x7b\x7b` and `\x7d\x7d` are escaped braces, a
simple replacement field named `dialect` or `top_k` is substituted, any other
field or a stray `\x7d` is an error (`none`).  The first argument of the mode
parameter is `none` outside a replacement field and `some acc` inside one,
`acc` holding the field characters read so far in reverse. -/
def pyFmtCore (d k : List Char) : Option (List Char) → List Char → Option (List Char)
  | none, [] => some []
  | none, '\x7b' :: '\x7b' :: rest => (pyFmtCore d k none rest).map (fun r => '\x7b' :: r)
  | none, '\x7d' :: '\x7d' :: rest => (pyFmtCore d k none rest).map (fun r => '\x7d' :: r)
  | none, '\x7b' :: rest => pyFmtCore d k (some []) rest
  | none, '\x7d' :: _ => none
  | none, c :: rest => (pyFmtCore d k none rest).map (fun r => c :: r)
  | some _, [] => none
  | some acc, '\x7d' :: rest =>
    if acc.reverse = "dialect".data then
      (pyFmtCore d k none rest).map (fun r => d ++ r)
    else if acc.reverse = "top_k".data then
      (pyFmtCore d k none rest).map (fun r => k ++ r)
    else none
  | some acc, c :: rest => pyFmtCore d k (some (c :: acc)) rest

/-- `template.format(dialect=d, top_k=k)` for a string template, with the
row-limit already rendered to a string. -/
def pyFormat (template d k : String) : Option String :=
  (pyFmtCore d.data k.data none template.data).map String.mk

/-- The Python idiom `x or default` for an optional string: `None` and the empty
string are falsy, every other string is returned unchanged. -/
def pyOrStr (x : Option String) (default : String) : String :=
  match x with
  | none => default
  | some s => if s = "" then default else s

/-- Modelled from the spec: the built-in prefix template shipped with the
toolkit (`SQL_PREFIX` in `agent_toolkits/sql/prompt.py`, a file not present
in the sources under scrutiny); it carries the two required replacement
fields, the dialect name and the row-limit hint. -/
def SQL_PREFIX : String :=
  "You are an agent designed to interact with a SQL database.\nGiven an input question, create a syntactically correct {dialect} query to run.\nAlways limit your query to at most {top_k} results."

/-- Modelled from the spec: the built-in default suffix of the zero-shot
reasoning strategy (`SQL_SUFFIX` in `agent_toolkits/sql/prompt.py`, not
present in the sources under scrutiny). -/
def SQL_SUFFIX : String :=
  "Begin!\n\nQuestion: {input}\nThought: I should look at the tables in the database to see what I can query.\n{agent_scratchpad}"

/-- Modelled from the spec: the built-in default suffix of the
function-calling strategy (`SQL_FUNCTIONS_SUFFIX` in
`agent_toolkits/sql/prompt.py`, not present in the sources under scrutiny),
a priming message with no replacement fields. -/
def SQL_FUNCTIONS_SUFFIX : String :=
  "I should look at the tables in the database to see what I can query.  Then I should query the schema of the most relevant tables."

/-- The closed enumeration of agent types (`langchain.agents.agent_types.AgentType`);
the builder supports exactly `ZERO_SHOT_REACT_DESCRIPTION` and `OPENAI_FUNCTIONS`. -/
inductive AgentType where
  | ZERO_SHOT_REACT_DESCRIPTION
  | REACT_DOCSTORE
  | SELF_ASK_WITH_SEARCH
  | CONVERSATIONAL_REACT_DESCRIPTION
  | CHAT_ZERO_SHOT_REACT_DESCRIPTION
  | CHAT_CONVERSATIONAL_REACT_DESCRIPTION
  | STRUCTURED_CHAT_ZERO_SHOT_REACT_DESCRIPTION
  | OPENAI_FUNCTIONS
  | OPENAI_MULTI_FUNCTIONS
  deriving DecidableEq

/-- The string value of each agent-type member, used when the unsupported-type
error message renders the offending type. -/
def AgentType.value : AgentType → String
  | .ZERO_SHOT_REACT_DESCRIPTION => "zero-shot-react-description"
  | .REACT_DOCSTORE => "react-docstore"
  | .SELF_ASK_WITH_SEARCH => "self-ask-with-search"
  | .CONVERSATIONAL_REACT_DESCRIPTION => "conversational-react-description"
  | .CHAT_ZERO_SHOT_REACT_DESCRIPTION => "chat-zero-shot-react-description"
  | .CHAT_CONVERSATIONAL_REACT_DESCRIPTION => "chat-conversational-react-description"
  | .STRUCTURED_CHAT_ZERO_SHOT_REACT_DESCRIPTION => "structured-chat-zero-shot-react-description"
  | .OPENAI_FUNCTIONS => "openai-functions"
  | .OPENAI_MULTI_FUNCTIONS => "openai-multi-functions"

/-- The zero-shot prompt as assembled by `ZeroShotAgent.create_prompt`:
interpolated prefix, the tool-listing section derived from the tools, an
optional format-instructions block, and the suffix. -/
structure ZeroShotPrompt where
  prefixText : String
  toolStrings : List String
  formatSection : Option String
  suffixText : String
  input_variables : Option (List String)
  deriving DecidableEq

/-- The tool-listing line derived from one tool for the zero-shot prompt. -/
def toolDescriptionLine (t : Tool) : String :=
  t.name ++ ": " ++ t.description

/-- Modelled from the spec: `ZeroShotAgent.create_prompt`
(`langchain/agents/mrkl/base.py`, not present in the sources under scrutiny)
builds a prompt from the interpolated prefix, a tool-listing section derived
from the name and description of each tool, an optional format-instructions block
(no section is inserted when the caller supplied none), and the suffix. -/
def ZeroShotAgent.create_prompt (tools : List Tool) (prefixText suffixText : String)
    (input_variables : Option (List String)) (format_instructions : Option String) :
    ZeroShotPrompt :=
  { prefixText := prefixText
    toolStrings := tools.map toolDescriptionLine
    formatSection := format_instructions
    suffixText := suffixText
    input_variables := input_variables }

/-- A slot of the function-calling chat prompt: a fixed system message, a
human message template, a fixed assistant message, or a named placeholder. -/
inductive Message where
  | system (content : String)
  | humanTemplate (template : String)
  | ai (content : String)
  | placeholder (variable_name : String)
  deriving DecidableEq

/-- The runnable produced by the external agent factories, recording exactly
what was bound into it: the model, the tool list and the assembled prompt. -/
inductive Runnable where
  | react (llm : BaseLanguageModel) (tools : List Tool) (prompt : ZeroShotPrompt)
  | openai_functions (llm : BaseLanguageModel) (tools : List Tool) (prompt : List Message)
  deriving DecidableEq

/-- The tool list the runnable agent was constructed over. -/
def Runnable.boundTools : Runnable → List Tool
  | .react _ tools _ => tools
  | .openai_functions _ tools _ => tools

/-- `RunnableAgent(runnable=..., input_keys_arg=["input"])`. -/
structure RunnableAgent where
  runnable : Runnable
  input_keys_arg : List String
  deriving DecidableEq

/-- The executable agent unit (`AgentExecutor`) returned by the builder:
the bound agent, the full tool list, and the pass-through execution
configuration. -/
structure AgentExecutor where
  agent : RunnableAgent
  tools : List Tool
  callback_manager : Option Nat
  verbose : Bool
  max_iterations : Option Int
  max_execution_time : Option Rat
  early_stopping_method : String
  extra_executor_kwargs : List (String × String)
  deriving DecidableEq

/-- The synchronous failures of `create_sql_agent`.  `attributeError` is the
crash of the `warnings.warning(...)` call on the extra-kwargs path (the
`warnings` module has no attribute `warning`); `formatError` is a failed
prefix interpolation; `unsupportedAgentType` is the `ValueError` of the
dispatch fall-through, carrying its message. -/
inductive BuildError where
  | attributeError (msg : String)
  | formatError
  | unsupportedAgentType (msg : String)
  deriving DecidableEq

/-- Shallow embedding of `create_sql_agent` (`agent_toolkits/sql/base.py`):
check extra kwargs, default the agent type, merge the tool lists, interpolate
the prefix, dispatch on the agent type building the prompt and
runnable agent, and wrap everything into the executor. -/
def create_sql_agent
    (llm : BaseLanguageModel)
    (toolkit : SQLDatabaseToolkit)
    (agent_type : Option AgentType)
    (callback_manager : Option Nat)
    (prefixTemplate : String)
    (suffix : Option String)
    (format_instructions : Option String)
    (input_variables : Option (List String))
    (top_k : Int)
    (max_iterations : Option Int)
    (max_execution_time : Option Rat)
    (early_stopping_method : String)
    (verbose : Bool)
    (agent_executor_kwargs : Option (List (String × String)))
    (extra_tools : List Tool)
    (kwargs : List (String × String)) :
    Except BuildError AgentExecutor :=
  if kwargs ≠ [] then
    .error (.attributeError "module warnings has no attribute warning")
  else
    let atype := agent_type.getD AgentType.ZERO_SHOT_REACT_DESCRIPTION
    let tools := toolkit.get_tools ++ extra_tools
    match pyFormat prefixTemplate toolkit.dialect (toString top_k) with
    | none => .error .formatError
    | some prefixText =>
      if atype = AgentType.ZERO_SHOT_REACT_DESCRIPTION then
        let prompt := ZeroShotAgent.create_prompt tools prefixText
          (pyOrStr suffix SQL_SUFFIX) input_variables format_instructions
        let agent : RunnableAgent := ⟨Runnable.react llm tools prompt, ["input"]⟩
        .ok { agent := agent
              tools := tools
              callback_manager := callback_manager
              verbose := verbose
              max_iterations := max_iterations
              max_execution_time := max_execution_time
              early_stopping_method := early_stopping_method
              extra_executor_kwargs := agent_executor_kwargs.getD [] }
      else if atype = AgentType.OPENAI_FUNCTIONS then
        let messages : List Message :=
          [ Message.system prefixText,
            Message.humanTemplate "{input}",
            Message.ai (pyOrStr suffix SQL_FUNCTIONS_SUFFIX),
            Message.placeholder "agent_scratchpad" ]
        let agent : RunnableAgent := ⟨Runnable.openai_functions llm tools messages, ["input"]⟩
        .ok { agent := agent
              tools := tools
              callback_manager := callback_manager
              verbose := verbose
              max_iterations := max_iterations
              max_execution_time := max_execution_time
              early_stopping_method := early_stopping_method
              extra_executor_kwargs := agent_executor_kwargs.getD [] }
      else
        .error (.unsupportedAgentType
          ("Agent type " ++ atype.value ++ " not supported at the moment."))

/-- The tool-listing section of the prompt carried by a runnable, when the
prompt has one (only the zero-shot prompt lists tools textually). -/
def Runnable.promptToolStrings : Runnable → Option (List String)
  | .react _ _ pr => some pr.toolStrings
  | .openai_functions _ _ _ => none

/-- The format-instructions section of the zero-shot prompt carried by an
executor, when its agent is a zero-shot one. -/
def AgentExecutor.zeroShotFormatSection (e : AgentExecutor) : Option (Option String) :=
  match e.agent.runnable with
  | .react _ _ pr => some pr.formatSection
  | .openai_functions _ _ _ => none

/-- The suffix text carried by the prompt of an executor: the suffix of the
zero-shot prompt, or the content of the third (assistant) message of the
function-calling prompt. -/
def AgentExecutor.suffixUsed (e : AgentExecutor) : Option String :=
  match e.agent.runnable with
  | .react _ _ pr => some pr.suffixText
  | .openai_functions _ _ msgs =>
    match msgs with
    | [_, _, Message.ai c, _] => some c
    | _ => none

/-- A sample toolkit (one query tool over sqlite) used in concrete witnesses. -/
def sampleToolkit : SQLDatabaseToolkit :=
  ⟨[⟨"sql_db_query", "Execute a SQL query against the database"⟩], "sqlite"⟩

/-- The executor produced by a sample zero-shot build over `sampleToolkit`
with template `"q"`, no overrides and no extra tools. -/
def sampleZeroShotExecutor : AgentExecutor :=
  { agent := ⟨Runnable.react ⟨0⟩ sampleToolkit.get_tools
        (ZeroShotAgent.create_prompt sampleToolkit.get_tools "q" SQL_SUFFIX none none),
      ["input"]⟩
    tools := sampleToolkit.get_tools
    callback_manager := none
    verbose := false
    max_iterations := some 15
    max_execution_time := none
    early_stopping_method := "force"
    extra_executor_kwargs := [] }

/-- Evaluation of the zero-shot branch: with no extra kwargs and a prefix
template that interpolates to `p`, the build returns the executor wrapping a
react runnable over the merged tool list. -/
theorem create_sql_agent_zero_shot_eval
    (llm : BaseLanguageModel) (tk : SQLDatabaseToolkit) (cb : Option Nat)
    (tpl : String) (sfx fmti : Option String) (iv : Option (List String))
    (K : Int) (mi : Option Int) (met : Option Rat) (esm : String) (vb : Bool)
    (aek : Option (List (String × String))) (xt : List Tool) (p : String)
    (hfmt : pyFormat tpl tk.dialect (toString K) = some p) :
    create_sql_agent llm tk (some AgentType.ZERO_SHOT_REACT_DESCRIPTION) cb tpl sfx fmti iv
        K mi met esm vb aek xt [] =
      .ok { agent := ⟨Runnable.react llm (tk.get_tools ++ xt)
                (ZeroShotAgent.create_prompt (tk.get_tools ++ xt) p
                  (pyOrStr sfx SQL_SUFFIX) iv fmti), ["input"]⟩
            tools := tk.get_tools ++ xt
            callback_manager := cb
            verbose := vb
            max_iterations := mi
            max_execution_time := met
            early_stopping_method := esm
            extra_executor_kwargs := aek.getD [] } := by
  simp [create_sql_agent, hfmt]

/-- Evaluation of the function-calling branch: with no extra kwargs and a
prefix template that interpolates to `p`, the build returns the executor
wrapping an openai-functions runnable over the merged tool list. -/
theorem create_sql_agent_openai_eval
    (llm : BaseLanguageModel) (tk : SQLDatabaseToolkit) (cb : Option Nat)
    (tpl : String) (sfx fmti : Option String) (iv : Option (List String))
    (K : Int) (mi : Option Int) (met : Option Rat) (esm : String) (vb : Bool)
    (aek : Option (List (String × String))) (xt : List Tool) (p : String)
    (hfmt : pyFormat tpl tk.dialect (toString K) = some p) :
    create_sql_agent llm tk (some AgentType.OPENAI_FUNCTIONS) cb tpl sfx fmti iv
        K mi met esm vb aek xt [] =
      .ok { agent := ⟨Runnable.openai_functions llm (tk.get_tools ++ xt)
                [ Message.system p,
                  Message.humanTemplate "{input}",
                  Message.ai (pyOrStr sfx SQL_FUNCTIONS_SUFFIX),
                  Message.placeholder "agent_scratchpad" ], ["input"]⟩
            tools := tk.get_tools ++ xt
            callback_manager := cb
            verbose := vb
            max_iterations := mi
            max_execution_time := met
            early_stopping_method := esm
            extra_executor_kwargs := aek.getD [] } := by
  simp [create_sql_agent, hfmt]

/-- C1: for every agent type other than the zero-shot and the
function-calling strategies (and not omitted), `create_sql_agent` fails
synchronously with the `ValueError` naming the unsupported type, and no
executor — partial or otherwise — is returned (the remaining arguments being
well formed: no extra kwargs, an interpolable prefix template). -/
theorem unsupported_agent_type_fails
    (llm : BaseLanguageModel) (tk : SQLDatabaseToolkit) (t : AgentType)
    (cb : Option Nat) (tpl : String) (sfx fmti : Option String)
    (iv : Option (List String)) (K : Int) (mi : Option Int) (met : Option Rat)
    (esm : String) (vb : Bool) (aek : Option (List (String × String)))
    (xt : List Tool) (p : String)
    (ht1 : t ≠ AgentType.ZERO_SHOT_REACT_DESCRIPTION)
    (ht2 : t ≠ AgentType.OPENAI_FUNCTIONS)
    (hfmt : pyFormat tpl tk.dialect (toString K) = some p) :
    create_sql_agent llm tk (some t) cb tpl sfx fmti iv K mi met esm vb aek xt []
      = .error (.unsupportedAgentType
          ("Agent type " ++ t.value ++ " not supported at the moment.")) := by
  simp [create_sql_agent, hfmt, ht1, ht2]

/-- Witness for the unsupported-type theorem at the concrete type
`REACT_DOCSTORE` with a one-field prefix template. -/
theorem unsupported_agent_type_fails_witness :
    create_sql_agent ⟨0⟩ ⟨[], "sqlite"⟩ (some AgentType.REACT_DOCSTORE) none
        "\x7bdialect\x7d" none none none 10 (some 15) none "force" false none [] []
      = .error (.unsupportedAgentType
          ("Agent type " ++ AgentType.REACT_DOCSTORE.value ++ " not supported at the moment.")) :=
  unsupported_agent_type_fails ⟨0⟩ ⟨[], "sqlite"⟩ AgentType.REACT_DOCSTORE none
    "\x7bdialect\x7d" none none none 10 (some 15) none "force" false none [] "sqlite"
    (by decide) (by decide) rfl

/-- C2: evaluating the builder at a call carrying one extra keyword argument.
The attribute `warnings.warning` named by the source does not exist in the
Python `warnings` module (the function is `warnings.warn`), so the call raises
`AttributeError` and aborts instead of emitting a non-fatal warning and
proceeding; no executor is returned. -/
theorem extra_kwargs_raise_attribute_error :
    create_sql_agent ⟨0⟩ ⟨[], "sqlite"⟩ (some AgentType.ZERO_SHOT_REACT_DESCRIPTION) none
        "\x7bdialect\x7d" none none none 10 (some 15) none "force" false none []
        [("legacy_flag", "1")]
      = .error (.attributeError "module warnings has no attribute warning") := rfl

/-- C3: for both supported agent types, the tool list bound into the returned
executor equals the tools of the toolkit followed by the extra tools, in exactly
that order. -/
theorem executor_tools_eq_toolkit_append_extra
    (llm : BaseLanguageModel) (tk : SQLDatabaseToolkit) (at_ : Option AgentType)
    (cb : Option Nat) (tpl : String) (sfx fmti : Option String)
    (iv : Option (List String)) (K : Int) (mi : Option Int) (met : Option Rat)
    (esm : String) (vb : Bool) (aek : Option (List (String × String)))
    (xt : List Tool) (p : String)
    (hsup : at_ = some AgentType.ZERO_SHOT_REACT_DESCRIPTION ∨
            at_ = some AgentType.OPENAI_FUNCTIONS)
    (hfmt : pyFormat tpl tk.dialect (toString K) = some p) :
    (create_sql_agent llm tk at_ cb tpl sfx fmti iv K mi met esm vb aek xt []).map
        AgentExecutor.tools = .ok (tk.get_tools ++ xt) := by
  rcases hsup with h | h <;> subst h
  · rw [create_sql_agent_zero_shot_eval llm tk cb tpl sfx fmti iv K mi met esm vb aek xt p hfmt]
    rfl
  · rw [create_sql_agent_openai_eval llm tk cb tpl sfx fmti iv K mi met esm vb aek xt p hfmt]
    rfl

/-- Witness for the tool-merge theorem: one toolkit tool followed by one
extra tool, under the function-calling strategy. -/
theorem executor_tools_eq_toolkit_append_extra_witness :
    (create_sql_agent ⟨0⟩ sampleToolkit (some AgentType.OPENAI_FUNCTIONS) none
        "\x7bdialect\x7d" none none none 10 (some 15) none "force" false none
        [⟨"extra_tool", "An extra capability"⟩] []).map AgentExecutor.tools
      = .ok (sampleToolkit.get_tools ++ [⟨"extra_tool", "An extra capability"⟩]) :=
  executor_tools_eq_toolkit_append_extra ⟨0⟩ sampleToolkit
    (some AgentType.OPENAI_FUNCTIONS) none "\x7bdialect\x7d" none none none 10 (some 15)
    none "force" false none [⟨"extra_tool", "An extra capability"⟩] "sqlite"
    (Or.inr rfl) rfl

/-- C4: whenever `create_sql_agent` returns an executor, the tool list the
runnable agent was constructed over is the own tool list of the executor, and the
tool-listing section of its prompt (when the prompt has one) is derived from
exactly that list, in the same order. -/
theorem runnable_tools_match_executor_tools
    (llm : BaseLanguageModel) (tk : SQLDatabaseToolkit) (at_ : Option AgentType)
    (cb : Option Nat) (tpl : String) (sfx fmti : Option String)
    (iv : Option (List String)) (K : Int) (mi : Option Int) (met : Option Rat)
    (esm : String) (vb : Bool) (aek : Option (List (String × String)))
    (xt : List Tool) (kw : List (String × String)) (e : AgentExecutor)
    (h : create_sql_agent llm tk at_ cb tpl sfx fmti iv K mi met esm vb aek xt kw = .ok e) :
    e.agent.runnable.boundTools = e.tools ∧
    (e.agent.runnable.promptToolStrings).getD (e.tools.map toolDescriptionLine)
      = e.tools.map toolDescriptionLine := by
  simp only [create_sql_agent] at h
  split at h
  · simp at h
  · split at h
    · simp at h
    · split at h
      · injection h with h2
        subst h2
        exact ⟨rfl, rfl⟩
      · split at h
        · injection h with h2
          subst h2
          exact ⟨rfl, rfl⟩
        · simp at h

/-- Witness for the tool-consistency theorem at a concrete zero-shot build
over `sampleToolkit`. -/
theorem runnable_tools_match_executor_tools_witness :
    sampleZeroShotExecutor.agent.runnable.boundTools = sampleZeroShotExecutor.tools ∧
    (sampleZeroShotExecutor.agent.runnable.promptToolStrings).getD
        (sampleZeroShotExecutor.tools.map toolDescriptionLine)
      = sampleZeroShotExecutor.tools.map toolDescriptionLine :=
  runnable_tools_match_executor_tools ⟨0⟩ sampleToolkit
    (some AgentType.ZERO_SHOT_REACT_DESCRIPTION) none "q" none none none 10 (some 15)
    none "force" false none [] [] sampleZeroShotExecutor rfl

/-- C5: the format-instructions section of the zero-shot prompt equals the
option supplied by the caller: supplying none inserts no section at all, and supplying one
puts the supplied text in the prompt verbatim. -/
theorem zero_shot_format_section_matches_override
    (llm : BaseLanguageModel) (tk : SQLDatabaseToolkit) (cb : Option Nat)
    (tpl : String) (sfx fmti : Option String) (iv : Option (List String))
    (K : Int) (mi : Option Int) (met : Option Rat) (esm : String) (vb : Bool)
    (aek : Option (List (String × String))) (xt : List Tool) (p : String)
    (hfmt : pyFormat tpl tk.dialect (toString K) = some p) :
    (create_sql_agent llm tk (some AgentType.ZERO_SHOT_REACT_DESCRIPTION) cb tpl sfx fmti
        iv K mi met esm vb aek xt []).map AgentExecutor.zeroShotFormatSection
      = .ok (some fmti) := by
  rw [create_sql_agent_zero_shot_eval llm tk cb tpl sfx fmti iv K mi met esm vb aek xt p hfmt]
  rfl

/-- Witness for the format-instructions theorem: with the override
`"Answer in JSON."` the section carries it verbatim. -/
theorem zero_shot_format_section_matches_override_witness :
    (create_sql_agent ⟨0⟩ sampleToolkit (some AgentType.ZERO_SHOT_REACT_DESCRIPTION) none
        "\x7bdialect\x7d" none (some "Answer in JSON.") none 10 (some 15) none "force"
        false none [] []).map AgentExecutor.zeroShotFormatSection
      = .ok (some (some "Answer in JSON.")) :=
  zero_shot_format_section_matches_override ⟨0⟩ sampleToolkit none "\x7bdialect\x7d" none
    (some "Answer in JSON.") none 10 (some 15) none "force" false none [] "sqlite" rfl

/-- C6: with no suffix override, the zero-shot build carries the built-in
zero-shot default suffix and the function-calling build carries the built-in
function-calling default suffix, each exactly. -/
theorem default_suffix_used_when_no_override
    (llm : BaseLanguageModel) (tk : SQLDatabaseToolkit) (cb : Option Nat)
    (tpl : String) (fmti : Option String) (iv : Option (List String))
    (K : Int) (mi : Option Int) (met : Option Rat) (esm : String) (vb : Bool)
    (aek : Option (List (String × String))) (xt : List Tool) (p : String)
    (hfmt : pyFormat tpl tk.dialect (toString K) = some p) :
    (create_sql_agent llm tk (some AgentType.ZERO_SHOT_REACT_DESCRIPTION) cb tpl none fmti
        iv K mi met esm vb aek xt []).map AgentExecutor.suffixUsed
      = .ok (some SQL_SUFFIX) ∧
    (create_sql_agent llm tk (some AgentType.OPENAI_FUNCTIONS) cb tpl none fmti
        iv K mi met esm vb aek xt []).map AgentExecutor.suffixUsed
      = .ok (some SQL_FUNCTIONS_SUFFIX) := by
  constructor
  · rw [create_sql_agent_zero_shot_eval llm tk cb tpl none fmti iv K mi met esm vb aek xt p hfmt]
    rfl
  · rw [create_sql_agent_openai_eval llm tk cb tpl none fmti iv K mi met esm vb aek xt p hfmt]
    rfl

/-- Witness for the default-suffix theorem at a concrete build over
`sampleToolkit`. -/
theorem default_suffix_used_when_no_override_witness :
    (create_sql_agent ⟨0⟩ sampleToolkit (some AgentType.ZERO_SHOT_REACT_DESCRIPTION) none
        "\x7bdialect\x7d" none none none 10 (some 15) none "force" false none [] []).map
        AgentExecutor.suffixUsed = .ok (some SQL_SUFFIX) ∧
    (create_sql_agent ⟨0⟩ sampleToolkit (some AgentType.OPENAI_FUNCTIONS) none
        "\x7bdialect\x7d" none none none 10 (some 15) none "force" false none [] []).map
        AgentExecutor.suffixUsed = .ok (some SQL_FUNCTIONS_SUFFIX) :=
  default_suffix_used_when_no_override ⟨0⟩ sampleToolkit none "\x7bdialect\x7d" none none
    10 (some 15) none "force" false none [] "sqlite" rfl

/-- C8: under the function-calling strategy, the bound agent is built over
exactly the four-message sequence: a system message with the interpolated
prefix, the user-input placeholder template, an assistant message with the
suffix (`pyOrStr sfx SQL_FUNCTIONS_SUFFIX`: the override of the caller when it is
a non-empty string, the built-in function-calling default otherwise), and
the scratchpad placeholder — in that order. -/
theorem openai_functions_prompt_structure
    (llm : BaseLanguageModel) (tk : SQLDatabaseToolkit) (cb : Option Nat)
    (tpl : String) (sfx fmti : Option String) (iv : Option (List String))
    (K : Int) (mi : Option Int) (met : Option Rat) (esm : String) (vb : Bool)
    (aek : Option (List (String × String))) (xt : List Tool) (p : String)
    (hfmt : pyFormat tpl tk.dialect (toString K) = some p) :
    (create_sql_agent llm tk (some AgentType.OPENAI_FUNCTIONS) cb tpl sfx fmti iv K mi
        met esm vb aek xt []).map AgentExecutor.agent
      = .ok ⟨Runnable.openai_functions llm (tk.get_tools ++ xt)
          [ Message.system p,
            Message.humanTemplate "{input}",
            Message.ai (pyOrStr sfx SQL_FUNCTIONS_SUFFIX),
            Message.placeholder "agent_scratchpad" ], ["input"]⟩ := by
  rw [create_sql_agent_openai_eval llm tk cb tpl sfx fmti iv K mi met esm vb aek xt p hfmt]
  rfl

/-- Witness for the function-calling prompt-structure theorem at a concrete
build over `sampleToolkit` with a caller-supplied suffix. -/
theorem openai_functions_prompt_structure_witness :
    (create_sql_agent ⟨0⟩ sampleToolkit (some AgentType.OPENAI_FUNCTIONS) none
        "\x7bdialect\x7d" (some "Start by listing tables.") none none 10 (some 15) none
        "force" false none [] []).map AgentExecutor.agent
      = .ok ⟨Runnable.openai_functions ⟨0⟩ (sampleToolkit.get_tools ++ [])
          [ Message.system "sqlite",
            Message.humanTemplate "{input}",
            Message.ai (pyOrStr (some "Start by listing tables.") SQL_FUNCTIONS_SUFFIX),
            Message.placeholder "agent_scratchpad" ], ["input"]⟩ :=
  openai_functions_prompt_structure ⟨0⟩ sampleToolkit none "\x7bdialect\x7d"
    (some "Start by listing tables.") none none 10 (some 15) none "force" false none []
    "sqlite" rfl

/-- Helper for the idempotence analysis: formatting a string containing no
brace character returns it unchanged. -/
theorem pyFmtCore_no_brace (d k : List Char) (l : List Char)
    (h : ∀ c ∈ l, c ≠ '\x7b' ∧ c ≠ '\x7d') :
    pyFmtCore d k none l = some l := by
  induction l with
  | nil => rfl
  | cons c rest ih =>
    obtain ⟨h1, h2⟩ := h c (List.mem_cons_self c rest)
    have hrest : ∀ x ∈ rest, x ≠ '\x7b' ∧ x ≠ '\x7d' :=
      fun x hx => h x (List.mem_cons_of_mem c hx)
    rw [pyFmtCore.eq_def]
    simp [h1, h2, ih hrest]

/-- C7 counterexample: for the template consisting of an escaped placeholder,
the first interpolation yields the literal text of the placeholder and the
second interpolation substitutes it, so interpolating the already-interpolated
result with the same dialect and row limit is not the identity. -/
theorem prefix_interpolation_not_idempotent :
    pyFormat "\x7b\x7bdialect\x7d\x7d" "postgresql" "10" = some "\x7bdialect\x7d" ∧
    pyFormat "\x7bdialect\x7d" "postgresql" "10" = some "postgresql" ∧
    ¬ ((pyFormat "\x7b\x7bdialect\x7d\x7d" "postgresql" "10").bind
          (fun s => pyFormat s "postgresql" "10")
        = pyFormat "\x7b\x7bdialect\x7d\x7d" "postgresql" "10") := by
  refine ⟨rfl, rfl, ?_⟩
  decide

/-- C7 amended: prefix interpolation is idempotent for every template whose
interpolation result contains no brace character (so in particular for every
template free of escaped braces whose substituted values introduce none):
interpolating the already-interpolated result with the same dialect and row
limit returns it unchanged. -/
theorem prefix_interpolation_idempotent_of_no_brace
    (tpl d k s : String)
    (_hfmt : pyFormat tpl d k = some s)
    (hnb : ∀ c ∈ s.data, c ≠ '\x7b' ∧ c ≠ '\x7d') :
    pyFormat s d k = some s := by
  have hid := pyFmtCore_no_brace d.data k.data s.data hnb
  simp [pyFormat, hid]

/-- Witness for the amended idempotence theorem at a concrete brace-free
interpolation. -/
theorem prefix_interpolation_idempotent_of_no_brace_witness :
    pyFormat "SELECT top \x7btop_k\x7d rows in \x7bdialect\x7d." "sqlite" "10"
      = some "SELECT top 10 rows in sqlite." ∧
    pyFormat "SELECT top 10 rows in sqlite." "sqlite" "10"
      = some "SELECT top 10 rows in sqlite." :=
  ⟨rfl, prefix_interpolation_idempotent_of_no_brace
      "SELECT top \x7btop_k\x7d rows in \x7bdialect\x7d." "sqlite" "10"
      "SELECT top 10 rows in sqlite." rfl (by decide)⟩

/-- C9: omitting the agent type never yields the unsupported-type error: the
build defaults to the zero-shot strategy and behaves exactly as the explicit
zero-shot call with the same remaining arguments, returning the same
executor (or failing the same way). -/
theorem none_agent_type_defaults_to_zero_shot
    (llm : BaseLanguageModel) (tk : SQLDatabaseToolkit)
    (cb : Option Nat) (tpl : String) (sfx fmti : Option String)
    (iv : Option (List String)) (K : Int) (mi : Option Int) (met : Option Rat)
    (esm : String) (vb : Bool) (aek : Option (List (String × String)))
    (xt : List Tool) (kw : List (String × String)) :
    create_sql_agent llm tk none cb tpl sfx fmti iv K mi met esm vb aek xt kw
      = create_sql_agent llm tk (some AgentType.ZERO_SHOT_REACT_DESCRIPTION) cb tpl sfx
          fmti iv K mi met esm vb aek xt kw ∧
    ∀ m, create_sql_agent llm tk none cb tpl sfx fmti iv K mi met esm vb aek xt kw
        ≠ .error (.unsupportedAgentType m) := by
  constructor
  · rfl
  · intro m h
    simp only [create_sql_agent] at h
    split at h
    · simp at h
    · split at h
      · simp at h
      · split at h
        · simp at h
        · rename_i hcond
          exact hcond rfl

/-- C10: an empty-string suffix override is treated exactly like no override:
for every agent type and every remaining argument, the build with `suffix`
the empty string returns exactly what the build with no suffix returns. -/
theorem empty_suffix_equals_no_suffix
    (llm : BaseLanguageModel) (tk : SQLDatabaseToolkit) (at_ : Option AgentType)
    (cb : Option Nat) (tpl : String) (fmti : Option String)
    (iv : Option (List String)) (K : Int) (mi : Option Int) (met : Option Rat)
    (esm : String) (vb : Bool) (aek : Option (List (String × String)))
    (xt : List Tool) (kw : List (String × String)) :
    create_sql_agent llm tk at_ cb tpl (some "") fmti iv K mi met esm vb aek xt kw
      = create_sql_agent llm tk at_ cb tpl none fmti iv K mi met esm vb aek xt kw := by
  rfl
